import Mathlib

/-!
Verification development for the CareerBoost AI repository.

The repository is a Next.js frontend (two interview-practice page variants
plus an analysis page) talking to a FastAPI backend over HTTP.  The frontend
pages are under `src/`; the backend modules (`main.py`, `agent.py`,
`schemas.py`, `utils.py`) are not, so backend behaviour is modelled from the
specification where a property depends on it.

The React pages are embedded as pure state-transition functions: each event
handler becomes a function from the page state (the `useState` cells) and the
backend's reply to the new page state, paired with the HTTP request the
handler issues (`none` when the handler returns before calling `fetch`).
Ephemeral `isLoading` flags, scroll refs and purely visual state are omitted:
every handler sets `isLoading` back to `false` in its `finally` block, so the
flag carries no information between events.
-/

namespace CareerBoost

/-- JavaScript-style whitespace test (the ASCII part of the character class
trimmed by `String.prototype.trim()`; the pages only ever trim user-typed
text, for which this is the relevant fragment). -/
def jsWhitespace (c : Char) : Bool :=
  (c == ' ') || (c == '\t') || (c == '\n') || (c == '\r') || (c == '\x0b') || (c == '\x0c')

/-- Predicate `jsBlank s` is `true` exactly when the JavaScript guard
`!s.trim()` takes the early-return branch: the string is empty or
consists only of whitespace. -/
def jsBlank (s : String) : Bool := s.data.all jsWhitespace

/-- JavaScript `a || b` on strings with a default: `none` and the empty
string are falsy, anything else is returned as-is. -/
def jsOr (o : Option String) (d : String) : String :=
  match o with
  | none => d
  | some s => if s.isEmpty then d else s

/-!
## ChatPage — the chat-style interview page (`src/unnamed/part_000`)

Component `InterviewPractice`: state hooks at lines 29-44, handlers
`handleStartInterview` (64-114), `handleSendAnswer` (116-169),
`handleResetSession` (171-181).
-/

namespace ChatPage

/-- Message roles used by the chat page: `assistant` renders as the
AI interviewer, `user` as the candidate. -/
inductive Role where
  | user
  | assistant
deriving Repr, DecidableEq, BEq

/-- The structured feedback object attached to an assistant message
(`ChatMessage.feedback` interface, part_000 lines 11-16). -/
structure Feedback where
  score : Int
  strengths : List String
  improvements : List String
  suggested_answer : String
deriving Repr, DecidableEq, BEq

/-- One entry of `chatHistory` (part_000 lines 8-17).  `feedback` is the
optional structured feedback; user messages are always constructed
without it. -/
structure ChatMessage where
  role : Role
  content : String
  feedback : Option Feedback := none
deriving Repr, DecidableEq, BEq

/-- The `useState` cells of the chat page (part_000 lines 29-42). -/
structure PageState where
  resumeFile : Option String
  resumeText : String
  jobDescFile : Option String
  jobDescText : String
  customInstructions : String
  sessionId : String
  isSessionStarted : Bool
  error : String
  chatHistory : List ChatMessage
  currentAnswer : String
  currentQuestion : String
deriving Repr, DecidableEq, BEq

/-- Session id built at mount, part_000 line 34:
`session-${Date.now()}-${Math.random()}`.  The timestamp is a natural
number of milliseconds; the random float is kept as its printed form. -/
def mkSessionId (now : Nat) (rand : String) : String :=
  "session-" ++ toString now ++ "-" ++ rand

/-- Initial state of the page at mount time (all `useState` initialisers). -/
def initState (now : Nat) (rand : String) : PageState where
  resumeFile := none
  resumeText := ""
  jobDescFile := none
  jobDescText := ""
  customInstructions := ""
  sessionId := mkSessionId now rand
  isSessionStarted := false
  error := ""
  chatHistory := []
  currentAnswer := ""
  currentQuestion := ""

/-- Body of the `POST /interview/start` request (part_000 lines 74-89). -/
structure StartRequest where
  resume_file : Option String
  resume_text : Option String
  job_description_file : Option String
  job_description_text : Option String
  custom_instructions : String
  session_id : String
deriving Repr, DecidableEq

/-- Successful JSON body of `POST /interview/start` as read by the page
(fields `message` and `question`, part_000 lines 101-107). -/
structure StartResponse where
  message : String
  question : String
deriving Repr, DecidableEq

/-- Outcome of the start fetch: `failure` carries the error message the
page derives from the response (`errorData.detail || defaultMsg`) or from
a network exception. -/
inductive StartResult where
  | failure (detail : String)
  | success (r : StartResponse)
deriving Repr, DecidableEq

/-- The guard of `handleStartInterview` (part_000 lines 65-68):
`(!resumeFile && !resumeText) || (!jobDescFile && !jobDescText)`. -/
def startBlocked (s : PageState) : Bool :=
  (s.resumeFile.isNone && s.resumeText.isEmpty)
    || (s.jobDescFile.isNone && s.jobDescText.isEmpty)

/-- The form-data payload of the start request (part_000 lines 74-89):
the file wins over the pasted text for each document. -/
def startRequestOf (s : PageState) : StartRequest where
  resume_file := s.resumeFile
  resume_text := if s.resumeFile.isSome then none else some s.resumeText
  job_description_file := s.jobDescFile
  job_description_text := if s.jobDescFile.isSome then none else some s.jobDescText
  custom_instructions := s.customInstructions
  session_id := s.sessionId

/-- Handler `handleStartInterview` (part_000 lines 64-114).  Returns the new page
state together with the request issued (`none` when the guard returns
early and no fetch happens). -/
def handleStartInterview (s : PageState) (res : StartResult) :
    PageState × Option StartRequest :=
  if startBlocked s then
    ({ s with error := "Please provide both resume and job description" }, none)
  else
    let s0 := { s with error := "" }
    match res with
    | .failure d => ({ s0 with error := d }, some (startRequestOf s))
    | .success r =>
        ({ s0 with
            currentQuestion := r.question
            chatHistory := [{ role := .assistant, content := r.message }]
            isSessionStarted := true }, some (startRequestOf s))

/-- Body of the `POST /interview/chat` request (part_000 lines 130-133). -/
structure ChatRequest where
  session_id : String
  user_answer : String
  custom_instructions : String
deriving Repr, DecidableEq

/-- Successful JSON body of `POST /interview/chat` as read by the page:
`message`, optional `feedback`, optional `next_question`
(part_000 lines 145-162). -/
structure ChatResponse where
  message : String
  feedback : Option Feedback
  next_question : Option String
deriving Repr, DecidableEq

/-- Outcome of the chat fetch. -/
inductive ChatResult where
  | failure (detail : String)
  | success (r : ChatResponse)
deriving Repr, DecidableEq

/-- The candidate message appended optimistically (part_000 lines 121-124):
role `user`, the typed answer, no feedback. -/
def candidateMsg (s : PageState) : ChatMessage where
  role := .user
  content := s.currentAnswer
  feedback := none

/-- State after the synchronous prefix of `handleSendAnswer`
(part_000 lines 121-127): the candidate message is appended to the chat
history and the input box is cleared, before the fetch is awaited. -/
def optimisticState (s : PageState) : PageState :=
  { s with
      chatHistory := s.chatHistory ++ [candidateMsg s]
      currentAnswer := "" }

/-- Handler `handleSendAnswer` (part_000 lines 116-169).  The guard
`if (!currentAnswer.trim()) return` issues no request; otherwise the
candidate message is appended first (`optimisticState`), then the fetch
result is folded in.  On success the assistant feedback message is
appended (with whatever `data.feedback` the server sent), and if
`data.next_question` is present a further assistant message carrying the
question is appended (the source delays it by a `setTimeout`, modelled as
its eventual effect) and `currentQuestion` is updated. -/
def handleSendAnswer (s : PageState) (res : ChatResult) :
    PageState × Option ChatRequest :=
  if jsBlank s.currentAnswer then (s, none)
  else
    let req : ChatRequest :=
      { session_id := s.sessionId
        user_answer := s.currentAnswer
        custom_instructions := s.customInstructions }
    let s1 := optimisticState s
    match res with
    | .failure d => ({ s1 with error := d }, some req)
    | .success r =>
        let s2 := { s1 with
          chatHistory := s1.chatHistory ++
            [{ role := .assistant, content := r.message, feedback := r.feedback }] }
        match r.next_question with
        | none => (s2, some req)
        | some q =>
            ({ s2 with
                currentQuestion := q
                chatHistory := s2.chatHistory ++ [{ role := .assistant, content := q }] },
              some req)

/-- Handler `handleResetSession` (part_000 lines 171-181): unconditionally clears
the session view and the inputs.  `error` and `sessionId` are left
untouched by the source. -/
def handleResetSession (s : PageState) : PageState :=
  { s with
      isSessionStarted := false
      chatHistory := []
      currentQuestion := ""
      currentAnswer := ""
      resumeFile := none
      resumeText := ""
      jobDescFile := none
      jobDescText := ""
      customInstructions := "" }

/-- Typing in the resume textarea (part_000 lines 263-266): sets the text
and clears any chosen file. -/
def typeResumeText (s : PageState) (t : String) : PageState :=
  { s with resumeText := t, resumeFile := none }

/-- Choosing a resume file (part_000 lines 50-55): stores the file and
clears the pasted text. -/
def chooseResumeFile (s : PageState) (f : String) : PageState :=
  { s with resumeFile := some f, resumeText := "" }

/-- Typing in the job-description textarea (part_000 lines 316-319). -/
def typeJobDescText (s : PageState) (t : String) : PageState :=
  { s with jobDescText := t, jobDescFile := none }

/-- Choosing a job-description file (part_000 lines 57-62). -/
def chooseJobDescFile (s : PageState) (f : String) : PageState :=
  { s with jobDescFile := some f, jobDescText := "" }

/-- Typing custom instructions (part_000 lines 333-334). -/
def typeCustomInstructions (s : PageState) (t : String) : PageState :=
  { s with customInstructions := t }

/-- Typing in the answer box (part_000 lines 491-492). -/
def typeAnswer (s : PageState) (t : String) : PageState :=
  { s with currentAnswer := t }

/-- States the chat page can reach through its event handlers.  The page
renders the input form only while `isSessionStarted = false` and the chat
view (answer box, send button, reset button) only while
`isSessionStarted = true` (part_000 lines 199 and 372), so the
constructors carry the corresponding guards. -/
inductive Reachable : PageState → Prop where
  | init (now : Nat) (rand : String) : Reachable (initState now rand)
  | start (s : PageState) (res : StartResult) (hs : s.isSessionStarted = false)
      (h : Reachable s) : Reachable (handleStartInterview s res).1
  | send (s : PageState) (res : ChatResult) (hs : s.isSessionStarted = true)
      (h : Reachable s) : Reachable (handleSendAnswer s res).1
  | reset (s : PageState) (hs : s.isSessionStarted = true) (h : Reachable s) :
      Reachable (handleResetSession s)
  | typeResume (s : PageState) (t : String) (hs : s.isSessionStarted = false)
      (h : Reachable s) : Reachable (typeResumeText s t)
  | pickResume (s : PageState) (f : String) (hs : s.isSessionStarted = false)
      (h : Reachable s) : Reachable (chooseResumeFile s f)
  | typeJobDesc (s : PageState) (t : String) (hs : s.isSessionStarted = false)
      (h : Reachable s) : Reachable (typeJobDescText s t)
  | pickJobDesc (s : PageState) (f : String) (hs : s.isSessionStarted = false)
      (h : Reachable s) : Reachable (chooseJobDescFile s f)
  | typeInstructions (s : PageState) (t : String) (hs : s.isSessionStarted = false)
      (h : Reachable s) : Reachable (typeCustomInstructions s t)
  | typeAns (s : PageState) (t : String) (hs : s.isSessionStarted = true)
      (h : Reachable s) : Reachable (typeAnswer s t)

/-- The role the other party plays in a strict alternation. -/
def otherRole : Role → Role
  | .user => .assistant
  | .assistant => .user

/-- Predicate `altRoles rs e` holds when the role list `rs` starts with `e` and then
strictly alternates. -/
def altRoles : List Role → Role → Bool
  | [], _ => true
  | r :: rs, e => (r == e) && altRoles rs (otherRole e)

/-- The claimed alternation shape: the history starts with an Interviewer
(assistant) turn and then strictly alternates Interviewer/Candidate. -/
def historyAlternates (h : List ChatMessage) : Bool :=
  altRoles (h.map (fun m => m.role)) .assistant

/-- The claimed feedback shape: every Candidate (user) turn that is
followed by a later Candidate turn carries a feedback object; only the
last Candidate turn may lack one. -/
def candidateFeedbackOk : List ChatMessage → Bool
  | [] => true
  | m :: rest =>
      (if m.role == .user && rest.any (fun x => x.role == .user) then
        m.feedback.isSome
      else
        true) && candidateFeedbackOk rest

/-- The history invariant the code actually maintains: user turns never
carry feedback (feedback only ever rides on assistant messages), and once
a session has started the history is non-empty and opens with an
assistant turn. -/
def historyInv (s : PageState) : Prop :=
  (∀ m ∈ s.chatHistory, m.role = Role.user → m.feedback = none)
    ∧ (s.isSessionStarted = true →
        ∃ m rest, s.chatHistory = m :: rest ∧ m.role = Role.assistant)

end ChatPage

/-!
## InterviewPage — the question/answer interview page
(`src/frontend/app/interview/page.tsx`, first document)

Component `InterviewPracticePage`: state hooks at lines 16-30, handlers
`startInterview` (56-116), `submitAnswer` (118-176), `resetInterview`
(178-197).
-/

namespace InterviewPage

/-- Message roles of the page's `chatHistory`
(page.tsx line 29: `'interviewer' | 'user'`). -/
inductive Role where
  | interviewer
  | user
deriving Repr, DecidableEq, BEq

/-- One entry of `chatHistory`: role and content only — this page attaches
no feedback object to messages. -/
structure Msg where
  role : Role
  content : String
deriving Repr, DecidableEq, BEq

/-- The current question card (page.tsx lines 8-12). -/
structure InterviewQuestion where
  question : String
  category : String
  suggested_answer_approach : String
deriving Repr, DecidableEq, BEq

/-- The `useState` cells of the interview page (page.tsx lines 16-30). -/
structure PageState where
  resumeFile : Option String
  resumeText : String
  jobDescFile : Option String
  jobDescText : String
  customInstructions : String
  sessionStarted : Bool
  error : String
  sessionId : String
  currentQuestion : Option InterviewQuestion
  userAnswer : String
  chatHistory : List Msg
  questionIndex : Nat
deriving Repr, DecidableEq, BEq

/-- Initial state of the page at mount time. -/
def initState : PageState where
  resumeFile := none
  resumeText := ""
  jobDescFile := none
  jobDescText := ""
  customInstructions := ""
  sessionStarted := false
  error := ""
  sessionId := ""
  currentQuestion := none
  userAnswer := ""
  chatHistory := []
  questionIndex := 0

/-- Session id built per start call, page.tsx line 64:
`session_${Date.now()}` — the timestamp alone, no random component. -/
def mkSessionId (now : Nat) : String :=
  "session_" ++ toString now

/-- Body of the `POST /interview/start` request (page.tsx lines 68-83). -/
structure StartRequest where
  resume_file : Option String
  resume_text : Option String
  job_description_file : Option String
  job_description_text : Option String
  custom_instructions : String
  session_id : String
deriving Repr, DecidableEq

/-- Successful JSON body of `POST /interview/start` as read by the page:
optional `question`, `category`, `suggested_answer_approach`
(page.tsx lines 95-108); empty strings behave like absent fields under
the JavaScript `||` defaults. -/
structure StartData where
  question : Option String
  category : Option String
  suggested_answer_approach : Option String
deriving Repr, DecidableEq

/-- Outcome of the start fetch. -/
inductive StartResult where
  | failure (detail : String)
  | success (d : StartData)
deriving Repr, DecidableEq

/-- The guard of `startInterview` (page.tsx lines 57-60). -/
def startBlocked (s : PageState) : Bool :=
  (s.resumeFile.isNone && s.resumeText.isEmpty)
    || (s.jobDescFile.isNone && s.jobDescText.isEmpty)

/-- The form-data payload of the start request (page.tsx lines 68-83),
carrying the freshly built session id. -/
def startRequestOf (s : PageState) (now : Nat) : StartRequest where
  resume_file := s.resumeFile
  resume_text := if s.resumeFile.isSome then none else some s.resumeText
  job_description_file := s.jobDescFile
  job_description_text := if s.jobDescFile.isSome then none else some s.jobDescText
  custom_instructions := s.customInstructions
  session_id := mkSessionId now

/-- Handler `startInterview` (page.tsx lines 56-116).  After the guard, the page
stores the new session id (line 65, before the fetch), clears the error,
and on success installs the first question — when `data.question` is
present — as both the current question card and the first interviewer
chat message, with `||`-defaults for category (`'General'`) and approach
(`''`). -/
def startInterview (s : PageState) (now : Nat) (res : StartResult) :
    PageState × Option StartRequest :=
  if startBlocked s then
    ({ s with error := "Please provide both resume and job description" }, none)
  else
    let s0 := { s with error := "", sessionId := mkSessionId now }
    match res with
    | .failure d => ({ s0 with error := d }, some (startRequestOf s now))
    | .success data =>
        let s1 :=
          match data.question with
          | none => s0
          | some q =>
              { s0 with
                  currentQuestion := some
                    { question := q
                      category := jsOr data.category "General"
                      suggested_answer_approach :=
                        jsOr data.suggested_answer_approach "" }
                  chatHistory := [{ role := .interviewer, content := q }] }
        ({ s1 with sessionStarted := true }, some (startRequestOf s now))

/-- Body of the `POST /interview/chat` request (page.tsx lines 128-130). -/
structure ChatRequest where
  session_id : String
  user_answer : String
deriving Repr, DecidableEq

/-- Successful JSON body of `POST /interview/chat` as read by the page:
optional `feedback` text, optional `next_question` with its optional
category and approach (page.tsx lines 142-166). -/
structure ChatData where
  feedback : Option String
  next_question : Option String
  next_category : Option String
  next_suggested_answer_approach : Option String
deriving Repr, DecidableEq

/-- Outcome of the chat fetch. -/
inductive ChatResult where
  | failure (detail : String)
  | success (d : ChatData)
deriving Repr, DecidableEq

/-- Handler `submitAnswer` (page.tsx lines 118-176).  A blank answer sets an error
and issues no request.  Otherwise on success the candidate answer and the
interviewer feedback message (default `'Thank you for your answer.'`) are
appended; if `data.next_question` is present it becomes the new current
question and a further interviewer message, else the current question is
cleared — the page's completion signal (lines 163-166) — with no error
set.  On failure only the error is set: this page appends nothing before
the fetch resolves. -/
def submitAnswer (s : PageState) (res : ChatResult) :
    PageState × Option ChatRequest :=
  if jsBlank s.userAnswer then
    ({ s with error := "Please enter your answer" }, none)
  else
    let req : ChatRequest := { session_id := s.sessionId, user_answer := s.userAnswer }
    let s0 := { s with error := "" }
    match res with
    | .failure d => ({ s0 with error := d }, some req)
    | .success data =>
        let h1 := s.chatHistory ++
          [{ role := .user, content := s.userAnswer },
            { role := .interviewer, content := jsOr data.feedback "Thank you for your answer." }]
        match data.next_question with
        | some q =>
            ({ s0 with
                currentQuestion := some
                  { question := q
                    category := jsOr data.next_category "General"
                    suggested_answer_approach :=
                      jsOr data.next_suggested_answer_approach "" }
                chatHistory := h1 ++ [{ role := .interviewer, content := q }]
                userAnswer := ""
                questionIndex := s.questionIndex + 1 }, some req)
        | none =>
            ({ s0 with
                currentQuestion := none
                chatHistory := h1
                userAnswer := ""
                questionIndex := s.questionIndex + 1 }, some req)

/-- Handler `resetInterview` (page.tsx lines 178-197): returns every state cell
except `sessionId` to its initial value (the file-input DOM resets have no
state counterpart). -/
def resetInterview (s : PageState) : PageState :=
  { s with
      resumeFile := none
      resumeText := ""
      jobDescFile := none
      jobDescText := ""
      customInstructions := ""
      error := ""
      sessionStarted := false
      currentQuestion := none
      userAnswer := ""
      chatHistory := []
      questionIndex := 0 }

end InterviewPage

/-!
## Spec-modelled backend components

The backend package (`backend/main.py`, `agent.py`, `schemas.py`,
`utils.py`) is referenced throughout the repository's documentation but is
not present under `src/`; the components below are modelled from the
specification's words (§4.1, §4.4, §4.6, §7) and from the documented
observable behaviour (health endpoint `max_text_size`, README error
payloads).
-/

namespace Backend

/-- Modelled from the spec: the structured Feedback record produced by the
StructuredResponseValidator for one interview turn (spec §3). -/
structure Feedback where
  score : Int
  strengths : List String
  improvements : List String
  suggested_answer : String
deriving Repr, DecidableEq

/-- Modelled from the spec: the field set the validator can extract from a
raw model reply for a Feedback request (spec §4.4).  `isJsonObject` is
false when the reply is prose with no extractable JSON object; each field
is `none` when absent from the extracted object. -/
structure RawFeedback where
  isJsonObject : Bool
  score : Int
  strengths : Option (List String)
  improvements : Option (List String)
  suggested_answer : Option String
deriving Repr, DecidableEq

/-- Clamp the model-reported score into `[1, 10]` (spec §4.4: coerced,
not rejected). -/
def clampScore (n : Int) : Int := max 1 (min 10 n)

/-- Modelled from the spec: one validation pass over a Feedback reply
(spec §4.4).  Hard failures are a non-JSON reply or a missing
`suggested_answer`; `strengths`/`improvements` default to the empty list
and the score is clamped. -/
def parseFeedback (r : RawFeedback) : Option Feedback :=
  if r.isJsonObject = false then none
  else
    match r.suggested_answer with
    | none => none
    | some sa =>
        some { score := clampScore r.score
               strengths := r.strengths.getD []
               improvements := r.improvements.getD []
               suggested_answer := sa }

/-- The orchestrator's outcome for a Feedback request. -/
inductive FeedbackResult where
  | ok (f : Feedback)
  | validationError
deriving Repr, DecidableEq

/-- Modelled from the spec: the repair policy around the validator
(spec §4.4, §7).  `replies n` is the model's reply to the `n`-th LLM call
(call 0 is the original request, call 1 the single corrective retry).
Returns the outcome together with the number of LLM calls made. -/
def feedbackWithRepair (replies : Nat → RawFeedback) : FeedbackResult × Nat :=
  match parseFeedback (replies 0) with
  | some f => (.ok f, 1)
  | none =>
      match parseFeedback (replies 1) with
      | some f => (.ok f, 2)
      | none => (.validationError, 2)

/-- Modelled from the spec: an interview session record held by the
InterviewSessionStore (spec §3, trimmed to the fields the store
operations inspect). -/
structure Session where
  resume : String
  jobDescription : String
  turnCount : Nat
deriving Repr, DecidableEq

/-- Modelled from the spec: the process-wide session registry keyed by
session identifier (spec §4.6), as an association list. -/
def Store : Type := List (String × Session)

/-- Lookup of `get(id)` before its not-found check: the first entry with
the matching key. -/
def Store.get (store : Store) (id : String) : Option Session :=
  (List.find? (fun e => e.1 == id) store).map (fun e => e.2)

/-- Modelled from the spec: `reset(sessionId)` removes the session from
the store regardless of current state and never fails on a missing
session (spec §4.7). -/
def Store.reset (store : Store) (id : String) : Store :=
  List.filter (fun e => !(e.1 == id)) store

/-- Modelled from the spec: the skill-match report assembled by the
analysis pipeline (spec §3). -/
structure AnalysisReport where
  skill_match_percentage : Int
  matched_skills : List String
  missing_skills : List String
  optimized_bullets : List String
  cover_letter : String
  interview_prep : List String
deriving Repr, DecidableEq

/-- Modelled from the spec: the raw analysis fields extracted from the
model reply before coercion (spec §4.4). -/
structure RawAnalysis where
  skill_match_percentage : Int
  matched_skills : List String
  missing_skills : List String
  optimized_bullets : List String
  cover_letter : String
  interview_prep : List String
deriving Repr, DecidableEq

/-- Case-insensitive key of a skill string. -/
def skillKey (s : String) : String := String.mk (s.data.map Char.toLower)

/-- Case-insensitive membership of a skill in a list. -/
def memCI (l : List String) (s : String) : Bool :=
  l.any (fun t => skillKey t == skillKey s)

/-- Modelled from the spec: case-insensitive deduplication, keeping the
first occurrence of each skill (spec §4.4). -/
def dedupCI (l : List String) : List String :=
  l.foldl (fun acc s => if memCI acc s then acc else acc ++ [s]) []

/-- Modelled from the spec: the validation pass for an AnalysisReport
(spec §4.4 and the §3 invariant): the percentage is clamped into
`[0, 100]`, both skill lists are deduplicated case-insensitively, missing
skills already matched are dropped so the lists are disjoint, and empty
`optimized_bullets` or `interview_prep` fail validation. -/
def validateAnalysis (r : RawAnalysis) : Option AnalysisReport :=
  let matched := dedupCI r.matched_skills
  let missing := (dedupCI r.missing_skills).filter (fun s => !(memCI matched s))
  if r.optimized_bullets.isEmpty || r.interview_prep.isEmpty then none
  else
    some { skill_match_percentage := max 0 (min 100 r.skill_match_percentage)
           matched_skills := matched
           missing_skills := missing
           optimized_bullets := r.optimized_bullets
           cover_letter := r.cover_letter
           interview_prep := r.interview_prep }

/-- A skill list with no case-insensitive duplicates. -/
def skillsDistinctCI (l : List String) : Prop :=
  l.Pairwise (fun a b => skillKey a ≠ skillKey b)

/-- The documented input character ceiling: the health endpoint reports
`max_text_size: 50000` and the README lists a 50,000-character-per-input
file size limit. -/
def MAX_TEXT_SIZE : Nat := 50000

/-- Errors of the document ingestor (spec §4.1). -/
inductive IngestError where
  | emptyInput
  | oversize
deriving Repr, DecidableEq

/-- A normalized document (spec §3): plain text within the ceiling. -/
structure NormalizedDocument where
  text : String
deriving Repr, DecidableEq

/-- Modelled from the spec: ingestion of already-extracted plain text
(spec §4.1).  Absent text fails with `emptyInput`; text exceeding the
configured ceiling fails with `oversize` rather than being truncated;
anything else is returned whole. -/
def ingestText (text : String) : Except IngestError NormalizedDocument :=
  if text.isEmpty then .error .emptyInput
  else if MAX_TEXT_SIZE < text.length then .error .oversize
  else .ok { text := text }

end Backend

/-!
## Concrete states used by witnesses and counterexamples
-/

/-- An interview page state with an active session awaiting an answer. -/
def c2State : InterviewPage.PageState :=
  { InterviewPage.initState with
      sessionStarted := true
      sessionId := "session_5"
      currentQuestion := some
        { question := "Q1", category := "General", suggested_answer_approach := "" }
      chatHistory := [{ role := .interviewer, content := "Q1" }]
      userAnswer := "A1" }

/-- A provider run for the validator scenario: the first reply is
non-JSON prose, the corrective retry returns a valid object with some
fields absent. -/
def c3Replies : Nat → Backend.RawFeedback := fun n =>
  if n = 0 then
    { isJsonObject := false, score := 0, strengths := none,
      improvements := none, suggested_answer := none }
  else
    { isJsonObject := true, score := 12, strengths := none,
      improvements := some ["be concrete"], suggested_answer := some "Use STAR." }

/-- A raw analysis reply with case-variant duplicates and an overlap
between the matched and missing lists. -/
def c6Raw : Backend.RawAnalysis :=
  { skill_match_percentage := 120
    matched_skills := ["Python", "python", "AWS"]
    missing_skills := ["aws", "Docker", "docker"]
    optimized_bullets := ["Built APIs."]
    cover_letter := "Dear Hiring Manager"
    interview_prep := ["Tell me about FastAPI."] }

/-- The report `validateAnalysis` produces for `c6Raw`. -/
def c6Report : Backend.AnalysisReport :=
  { skill_match_percentage := 100
    matched_skills := ["Python", "AWS"]
    missing_skills := ["Docker"]
    optimized_bullets := ["Built APIs."]
    cover_letter := "Dear Hiring Manager"
    interview_prep := ["Tell me about FastAPI."] }

/-- An interview page state ready to start (both documents pasted). -/
def c8State : InterviewPage.PageState :=
  { InterviewPage.initState with resumeText := "R", jobDescText := "J" }

/-- A second, distinct ready interview page state (a different user's
inputs), used to exhibit a session-id collision at an equal timestamp. -/
def c8StateB : InterviewPage.PageState :=
  { InterviewPage.initState with resumeText := "Resume two", jobDescText := "Job two" }

/-- Chat page: the mount state of the counterexample trace. -/
def c1s0 : ChatPage.PageState := ChatPage.initState 0 "0.5"

/-- Chat page state after typing both documents and a successful start
(opening message `M1`, first question `Q1`). -/
def c1s3 : ChatPage.PageState :=
  (ChatPage.handleStartInterview
      (ChatPage.typeJobDescText (ChatPage.typeResumeText c1s0 "R") "J")
      (ChatPage.StartResult.success { message := "M1", question := "Q1" })).1

/-- Chat page state after answering `A1` and receiving feedback `F1`
together with a next question `Q2`. -/
def c1s5 : ChatPage.PageState :=
  (ChatPage.handleSendAnswer (ChatPage.typeAnswer c1s3 "A1")
      (ChatPage.ChatResult.success
        { message := "F1"
          feedback := some
            { score := 7, strengths := ["clear"], improvements := [],
              suggested_answer := "S" }
          next_question := some "Q2" })).1

/-!
## Claims
-/

/-- C4: For every session id, including one that names no existing
session, reset succeeds without error (it is a total function), removes
the session regardless of its current state, and is idempotent; the
client-side reset handlers of both pages are likewise idempotent. -/
theorem C4_reset_removes_and_idempotent (store : Backend.Store) (id : String)
    (s : ChatPage.PageState) (t : InterviewPage.PageState) :
    Backend.Store.get (Backend.Store.reset store id) id = none
    ∧ Backend.Store.reset (Backend.Store.reset store id) id
        = Backend.Store.reset store id
    ∧ ChatPage.handleResetSession (ChatPage.handleResetSession s)
        = ChatPage.handleResetSession s
    ∧ InterviewPage.resetInterview (InterviewPage.resetInterview t)
        = InterviewPage.resetInterview t := by
  refine ⟨?_, ?_, rfl, rfl⟩
  · induction store with
    | nil => rfl
    | cons e rest ih =>
        by_cases h : e.1 == id
        · simpa [Backend.Store.reset, List.filter_cons, h] using ih
        · simp [Backend.Store.reset, Backend.Store.get, List.filter_cons,
            List.find?_cons, h]
  · simp only [Backend.Store.reset, List.filter_filter]
    simp

/-- C5: A start request with empty résumé text and no résumé file is
rejected by the guard of both pages' start handlers: the error message is
set and no HTTP request (hence no provider call) is issued. -/
theorem C5_empty_resume_blocks_start
    (s : ChatPage.PageState) (res : ChatPage.StartResult)
    (t : InterviewPage.PageState) (now : Nat) (res2 : InterviewPage.StartResult)
    (hs1 : s.resumeFile = none) (hs2 : s.resumeText = "")
    (ht1 : t.resumeFile = none) (ht2 : t.resumeText = "") :
    ChatPage.handleStartInterview s res =
      ({ s with error := "Please provide both resume and job description" }, none)
    ∧ InterviewPage.startInterview t now res2 =
      ({ t with error := "Please provide both resume and job description" }, none) := by
  constructor
  · simp [ChatPage.handleStartInterview, ChatPage.startBlocked, hs1, hs2,
      String.isEmpty]
  · simp [InterviewPage.startInterview, InterviewPage.startBlocked, ht1, ht2,
      String.isEmpty]

/-- Witness for C5 at concrete page states. -/
theorem C5_empty_resume_blocks_start_witness :
    ChatPage.handleStartInterview (ChatPage.initState 0 "0.1")
        (ChatPage.StartResult.failure "e") =
      ({ ChatPage.initState 0 "0.1" with
          error := "Please provide both resume and job description" }, none)
    ∧ InterviewPage.startInterview InterviewPage.initState 5
        (InterviewPage.StartResult.failure "e") =
      ({ InterviewPage.initState with
          error := "Please provide both resume and job description" }, none) :=
  C5_empty_resume_blocks_start (ChatPage.initState 0 "0.1") _
    InterviewPage.initState 5 _ rfl rfl rfl rfl

/-- C10: A blank (empty or whitespace-only) answer makes both submit
handlers return before the fetch: no backend request is issued and the
chat history is unchanged (the chat page leaves the whole state
untouched; the interview page only sets a local error message). -/
theorem C10_blank_answer_no_request
    (s : ChatPage.PageState) (res : ChatPage.ChatResult)
    (t : InterviewPage.PageState) (res2 : InterviewPage.ChatResult)
    (hs : jsBlank s.currentAnswer = true) (ht : jsBlank t.userAnswer = true) :
    ChatPage.handleSendAnswer s res = (s, none)
    ∧ InterviewPage.submitAnswer t res2 =
        ({ t with error := "Please enter your answer" }, none) := by
  constructor
  · simp [ChatPage.handleSendAnswer, hs]
  · simp [InterviewPage.submitAnswer, ht]

/-- Witness for C10 at concrete page states with whitespace-only answers. -/
theorem C10_blank_answer_no_request_witness :
    ChatPage.handleSendAnswer (ChatPage.typeAnswer (ChatPage.initState 0 "0.1") " \t")
        (ChatPage.ChatResult.failure "e") =
      (ChatPage.typeAnswer (ChatPage.initState 0 "0.1") " \t", none)
    ∧ InterviewPage.submitAnswer InterviewPage.initState
        (InterviewPage.ChatResult.failure "e") =
      ({ InterviewPage.initState with error := "Please enter your answer" }, none) :=
  C10_blank_answer_no_request _ _ _ _ (by decide) (by decide)

/-- C9: For a non-blank answer the chat page appends the candidate
message (with no feedback) to the visible history before the fetch is
issued (`optimisticState` is the state after the synchronous prefix of
the handler), and a failed request leaves that message in place — the
failure only sets the error, it does not roll the history back. -/
theorem C9_failed_request_keeps_candidate_turn
    (s : ChatPage.PageState) (d : String)
    (h : jsBlank s.currentAnswer = false) :
    (ChatPage.optimisticState s).chatHistory
        = s.chatHistory ++
            [{ role := ChatPage.Role.user, content := s.currentAnswer, feedback := none }]
    ∧ ChatPage.handleSendAnswer s (ChatPage.ChatResult.failure d)
        = ({ ChatPage.optimisticState s with error := d },
            some { session_id := s.sessionId, user_answer := s.currentAnswer,
                   custom_instructions := s.customInstructions }) := by
  constructor
  · simp [ChatPage.optimisticState, ChatPage.candidateMsg]
  · simp [ChatPage.handleSendAnswer, h]

/-- Witness for C9 at a concrete state with answer `"A1"`. -/
theorem C9_failed_request_keeps_candidate_turn_witness :
    (ChatPage.optimisticState (ChatPage.typeAnswer (ChatPage.initState 0 "0.1") "A1")).chatHistory
        = (ChatPage.typeAnswer (ChatPage.initState 0 "0.1") "A1").chatHistory ++
            [{ role := ChatPage.Role.user, content := "A1", feedback := none }]
    ∧ ChatPage.handleSendAnswer (ChatPage.typeAnswer (ChatPage.initState 0 "0.1") "A1")
        (ChatPage.ChatResult.failure "boom")
        = ({ ChatPage.optimisticState (ChatPage.typeAnswer (ChatPage.initState 0 "0.1") "A1") with
              error := "boom" },
            some { session_id := (ChatPage.typeAnswer (ChatPage.initState 0 "0.1") "A1").sessionId,
                   user_answer := "A1",
                   custom_instructions := "" }) :=
  C9_failed_request_keeps_candidate_turn _ "boom" (by decide)

/-- C2: On a successful submit of a non-blank answer in an active
session, the handler consumes the feedback and the optional next
question; when `next_question` is absent the current question is cleared
(the page's interview-complete signal) and no error is set — absence is
not treated as an error. -/
theorem C2_absent_next_question_is_completion
    (s : InterviewPage.PageState) (data : InterviewPage.ChatData)
    (_hActive : s.sessionStarted = true) (_hq : s.currentQuestion.isSome = true)
    (h : jsBlank s.userAnswer = false) :
    (InterviewPage.submitAnswer s (InterviewPage.ChatResult.success data)).2
        = some { session_id := s.sessionId, user_answer := s.userAnswer }
    ∧ (InterviewPage.submitAnswer s (InterviewPage.ChatResult.success data)).1.error = ""
    ∧ (InterviewPage.submitAnswer s (InterviewPage.ChatResult.success data)).1.chatHistory
        = s.chatHistory ++
            [{ role := InterviewPage.Role.user, content := s.userAnswer },
              { role := InterviewPage.Role.interviewer,
                content := jsOr data.feedback "Thank you for your answer." }]
          ++ (match data.next_question with
              | some q => [{ role := InterviewPage.Role.interviewer, content := q }]
              | none => [])
    ∧ ((InterviewPage.submitAnswer s (InterviewPage.ChatResult.success data)).1.currentQuestion
          = none ↔ data.next_question = none) := by
  cases hnq : data.next_question with
  | none => simp [InterviewPage.submitAnswer, h, hnq]
  | some q => simp [InterviewPage.submitAnswer, h, hnq]

/-- Witness for C2: a concrete active session, one response with a next
question and one without. -/
theorem C2_absent_next_question_is_completion_witness :
    ((InterviewPage.submitAnswer c2State (InterviewPage.ChatResult.success
          { feedback := some "good", next_question := none,
            next_category := none, next_suggested_answer_approach := none })).1.currentQuestion
        = none ↔ (none : Option String) = none)
    ∧ (InterviewPage.submitAnswer c2State (InterviewPage.ChatResult.success
          { feedback := some "good", next_question := none,
            next_category := none, next_suggested_answer_approach := none })).1.error = "" :=
  ⟨(C2_absent_next_question_is_completion c2State _ rfl rfl (by decide)).2.2.2,
    (C2_absent_next_question_is_completion c2State _ rfl rfl (by decide)).2.1⟩

/-- C3: once the first model reply for a Feedback request fails
validation, the orchestrator makes exactly one more LLM call (two in
total — the single corrective retry); it raises `validationError` if and
only if the retry reply also fails validation — never after only the
first failure — and otherwise returns the (possibly degraded) feedback
parsed from the retry reply. -/
theorem C3_one_repair_retry_then_degrade (replies : Nat → Backend.RawFeedback)
    (h0 : Backend.parseFeedback (replies 0) = none) :
    (Backend.feedbackWithRepair replies).2 = 2
    ∧ ((Backend.feedbackWithRepair replies).1 = Backend.FeedbackResult.validationError
        ↔ Backend.parseFeedback (replies 1) = none)
    ∧ (Backend.feedbackWithRepair replies).1 =
        (match Backend.parseFeedback (replies 1) with
          | some f => Backend.FeedbackResult.ok f
          | none => Backend.FeedbackResult.validationError) := by
  cases h1 : Backend.parseFeedback (replies 1) with
  | none => simp [Backend.feedbackWithRepair, h0, h1]
  | some f => simp [Backend.feedbackWithRepair, h0, h1]

/-- Witness for C3: the model first answers non-JSON prose, the repair
retry answers a valid object; no `validationError` is raised and the
repaired feedback is returned after exactly two calls. -/
theorem C3_one_repair_retry_then_degrade_witness :
    (Backend.feedbackWithRepair c3Replies).2 = 2
    ∧ ((Backend.feedbackWithRepair c3Replies).1 = Backend.FeedbackResult.validationError
        ↔ Backend.parseFeedback (c3Replies 1) = none)
    ∧ (Backend.feedbackWithRepair c3Replies).1 =
        (match Backend.parseFeedback (c3Replies 1) with
          | some f => Backend.FeedbackResult.ok f
          | none => Backend.FeedbackResult.validationError) :=
  C3_one_repair_retry_then_degrade c3Replies (by decide)

/-- C7: text longer than the documented 50,000-character ceiling fails
ingestion with `oversize` and is never returned truncated (no `ok` result
exists for it), while text at or below the ceiling is never rejected for
size and, when accepted, is returned whole. -/
theorem C7_oversize_fails_within_ceiling_accepted (t1 t2 : String)
    (big : Backend.MAX_TEXT_SIZE < t1.length)
    (small : t2.length ≤ Backend.MAX_TEXT_SIZE) :
    Backend.ingestText t1 = Except.error Backend.IngestError.oversize
    ∧ (∀ d, ¬ Backend.ingestText t1 = Except.ok d)
    ∧ ¬ Backend.ingestText t2 = Except.error Backend.IngestError.oversize
    ∧ (Backend.ingestText t2).toOption.all (fun d => d.text == t2) = true := by
  have ht1 : t1.isEmpty = false := by
    cases hE : t1.isEmpty
    · rfl
    · exfalso
      have : t1 = "" := (String.isEmpty_iff t1).mp hE
      rw [this] at big
      simp [Backend.MAX_TEXT_SIZE] at big
  refine ⟨?_, ?_, ?_, ?_⟩
  · simp [Backend.ingestText, ht1, big]
  · intro d
    simp [Backend.ingestText, ht1, big]
  · cases hE : t2.isEmpty with
    | true => simp [Backend.ingestText, hE]
    | false =>
        have : ¬ Backend.MAX_TEXT_SIZE < t2.length := by omega
        simp [Backend.ingestText, hE, this]
  · cases hE : t2.isEmpty with
    | true => simp [Backend.ingestText, hE, Except.toOption, Option.all]
    | false =>
        have : ¬ Backend.MAX_TEXT_SIZE < t2.length := by omega
        simp [Backend.ingestText, hE, this, Except.toOption, Option.all]

/-- Witness for C7: a 50,001-character input fails with `oversize`; a
one-character input is accepted whole. -/
theorem C7_oversize_fails_within_ceiling_accepted_witness :
    Backend.ingestText (String.mk (List.replicate 50001 'a'))
        = Except.error Backend.IngestError.oversize
    ∧ (∀ d, ¬ Backend.ingestText (String.mk (List.replicate 50001 'a')) = Except.ok d)
    ∧ ¬ Backend.ingestText "a" = Except.error Backend.IngestError.oversize
    ∧ (Backend.ingestText "a").toOption.all (fun d => d.text == "a") = true :=
  C7_oversize_fails_within_ceiling_accepted (String.mk (List.replicate 50001 'a')) "a"
    (by show Backend.MAX_TEXT_SIZE < (List.replicate 50001 'a').length
        rw [List.length_replicate]
        decide)
    (by decide)

/-- Case-insensitive membership test spelled out. -/
theorem memCI_eq_false_iff (l : List String) (s : String) :
    Backend.memCI l s = false
      ↔ ∀ t ∈ l, Backend.skillKey t ≠ Backend.skillKey s := by
  simp [Backend.memCI]

/-- The fold inside `dedupCI` preserves case-insensitive distinctness of
the accumulator. -/
theorem dedupCI_fold_pairwise (l : List String) :
    ∀ acc : List String, Backend.skillsDistinctCI acc →
      Backend.skillsDistinctCI
        (l.foldl (fun acc s => if Backend.memCI acc s then acc else acc ++ [s]) acc) := by
  induction l with
  | nil => intro acc h; simpa using h
  | cons s rest ih =>
      intro acc h
      simp only [List.foldl_cons]
      apply ih
      cases hm : Backend.memCI acc s with
      | true => simpa [hm] using h
      | false =>
          simp only [hm, Bool.false_eq_true, if_false]
          rw [Backend.skillsDistinctCI, List.pairwise_append]
          refine ⟨h, by simp, ?_⟩
          intro a ha b hb
          simp only [List.mem_singleton] at hb
          subst hb
          exact (memCI_eq_false_iff acc b).mp hm a ha

/-- The `dedupCI` output has no case-insensitive duplicates. -/
theorem dedupCI_pairwise (l : List String) :
    Backend.skillsDistinctCI (Backend.dedupCI l) :=
  dedupCI_fold_pairwise l [] (by simp [Backend.skillsDistinctCI])

/-- C6: every report produced by the analysis validation pass has
case-insensitively duplicate-free `matched_skills` and `missing_skills`,
and the two lists are disjoint up to case. -/
theorem C6_skill_lists_disjoint_dedup (r : Backend.RawAnalysis)
    (rep : Backend.AnalysisReport) (h : Backend.validateAnalysis r = some rep) :
    Backend.skillsDistinctCI rep.matched_skills
    ∧ Backend.skillsDistinctCI rep.missing_skills
    ∧ ∀ a ∈ rep.matched_skills, ∀ b ∈ rep.missing_skills,
        Backend.skillKey a ≠ Backend.skillKey b := by
  unfold Backend.validateAnalysis at h
  cases hc : (r.optimized_bullets.isEmpty || r.interview_prep.isEmpty) with
  | true => simp [hc] at h
  | false =>
      simp only [hc, Bool.false_eq_true, if_false, Option.some.injEq] at h
      subst h
      refine ⟨dedupCI_pairwise _, ?_, ?_⟩
      · exact (dedupCI_pairwise _).filter _
      · intro a ha b hb
        have hb2 := List.mem_filter.mp hb
        have hmem : Backend.memCI (Backend.dedupCI r.matched_skills) b = false := by
          have := hb2.2
          simpa using this
        exact (memCI_eq_false_iff _ b).mp hmem a ha

/-- Witness for C6: a raw reply with case-variant duplicates and an
overlap between the two lists validates to a deduplicated, disjoint
report. -/
theorem C6_skill_lists_disjoint_dedup_witness :
    Backend.skillsDistinctCI c6Report.matched_skills
    ∧ Backend.skillsDistinctCI c6Report.missing_skills
    ∧ ∀ a ∈ c6Report.matched_skills, ∀ b ∈ c6Report.missing_skills,
        Backend.skillKey a ≠ Backend.skillKey b :=
  C6_skill_lists_disjoint_dedup c6Raw c6Report (by decide)

/-- C8 counterexample: the interview page's `startInterview` sends
session id `"session_5"` at timestamp 5 — the timestamp alone, not a
timestamp plus a random float.  Two different users' start requests in
the same millisecond carry the identical id, and the id differs from the
timestamp-plus-random form the chat page would build. -/
theorem C8_counterexample :
    (InterviewPage.startInterview c8State 5 (InterviewPage.StartResult.failure "e")).2.map
        (fun r => r.session_id) = some "session_5"
    ∧ (InterviewPage.startInterview c8StateB 5 (InterviewPage.StartResult.failure "e")).2.map
        (fun r => r.session_id) = some "session_5"
    ∧ "session_5" ≠ ChatPage.mkSessionId 5 "0.5" := by
  refine ⟨by decide, by decide, by decide⟩

/-- C8 amended: session ids are client-generated with no uniqueness
guarantee; the chat page builds `session-<now>-<rand>` from the timestamp
and the random float at mount, while the interview page's
`startInterview` sends `session_<now>` built from the timestamp alone, so
any two start requests issued in the same millisecond carry the same
session id. -/
theorem C8_amended (s : InterviewPage.PageState) (now : Nat)
    (res : InterviewPage.StartResult) (m : Nat) (rand : String) :
    (InterviewPage.startInterview s now res).2.all
        (fun r => r.session_id == InterviewPage.mkSessionId now) = true
    ∧ (ChatPage.initState m rand).sessionId = ChatPage.mkSessionId m rand
    ∧ InterviewPage.mkSessionId now = "session_" ++ toString now
    ∧ ChatPage.mkSessionId m rand = "session-" ++ toString m ++ "-" ++ rand := by
  refine ⟨?_, rfl, rfl, rfl⟩
  unfold InterviewPage.startInterview
  cases hb : InterviewPage.startBlocked s with
  | true => simp [hb]
  | false =>
      cases res with
      | failure d => simp [hb, InterviewPage.startRequestOf, Option.all]
      | success data =>
          cases data.question with
          | none => simp [hb, InterviewPage.startRequestOf, Option.all]
          | some q => simp [hb, InterviewPage.startRequestOf, Option.all]

/-- C1 counterexample: a session started successfully and answered once,
with the reply carrying feedback and a next question, is reachable, yet
its chat history is `[Interviewer, Candidate, Interviewer, Interviewer]`
— two consecutive Interviewer turns — so the history does not strictly
alternate; the claimed invariant is false at this state. -/
theorem C1_counterexample :
    ChatPage.Reachable c1s5
    ∧ (ChatPage.historyAlternates c1s5.chatHistory
        && ChatPage.candidateFeedbackOk c1s5.chatHistory) = false := by
  constructor
  · exact ChatPage.Reachable.send _ _ (by decide)
      (ChatPage.Reachable.typeAns _ _ (by decide)
        (ChatPage.Reachable.start _ _ (by decide)
          (ChatPage.Reachable.typeJobDesc _ _ (by decide)
            (ChatPage.Reachable.typeResume _ _ (by decide)
              (ChatPage.Reachable.init 0 "0.5")))))
  · decide

/-- C1 amended: in every reachable chat page state, Candidate (user)
turns never carry feedback — the structured feedback always rides on the
Interviewer message that follows the answer — and once the session has
started the history is non-empty and opens with an Interviewer turn.
Strict alternation does not hold (see the counterexample). -/
theorem C1_candidate_turns_carry_no_feedback (s : ChatPage.PageState)
    (h : ChatPage.Reachable s) : ChatPage.historyInv s := by
  induction h with
  | init now rand =>
      refine ⟨?_, ?_⟩
      · intro m hm
        simp [ChatPage.initState] at hm
      · intro hst
        simp [ChatPage.initState] at hst
  | start s res hs hprev ih =>
      unfold ChatPage.handleStartInterview
      split
      · exact ih
      · cases res with
        | failure d => exact ih
        | success r =>
            refine ⟨?_, fun _ => ⟨_, [], rfl, rfl⟩⟩
            intro m hm _
            simp only [List.mem_singleton] at hm
            subst hm
            rfl
  | send s res hs hprev ih =>
      obtain ⟨hAll, hHead⟩ := ih
      cases hblank : jsBlank s.currentAnswer with
      | true =>
          have he : ChatPage.handleSendAnswer s res = (s, none) := by
            simp [ChatPage.handleSendAnswer, hblank]
          rw [he]
          exact ⟨hAll, hHead⟩
      | false =>
          obtain ⟨m0, rest0, hh, hrole⟩ := hHead hs
          have hch : ∃ tail : List ChatPage.ChatMessage,
              (∀ m ∈ tail, m.role = ChatPage.Role.user → m.feedback = none)
              ∧ (ChatPage.handleSendAnswer s res).1.chatHistory
                  = s.chatHistory ++ (ChatPage.candidateMsg s :: tail) := by
            cases res with
            | failure d =>
                refine ⟨[], by simp, ?_⟩
                simp [ChatPage.handleSendAnswer, hblank, ChatPage.optimisticState]
            | success r =>
                cases hnq : r.next_question with
                | none =>
                    refine ⟨[ChatPage.ChatMessage.mk .assistant r.message r.feedback],
                      ?_, ?_⟩
                    · intro m hm hu
                      simp only [List.mem_singleton] at hm
                      subst hm
                      cases hu
                    · simp [ChatPage.handleSendAnswer, hblank,
                        ChatPage.optimisticState, hnq]
                | some q =>
                    refine ⟨[ChatPage.ChatMessage.mk .assistant r.message r.feedback,
                      ChatPage.ChatMessage.mk .assistant q none], ?_, ?_⟩
                    · intro m hm hu
                      rcases List.mem_cons.mp hm with h1 | h2
                      · subst h1
                        cases hu
                      · simp only [List.mem_singleton] at h2
                        subst h2
                        cases hu
                    · simp [ChatPage.handleSendAnswer, hblank,
                        ChatPage.optimisticState, hnq]
          obtain ⟨tail, htail, hceq⟩ := hch
          refine ⟨?_, fun _ => ?_⟩
          · intro m hm hu
            rw [hceq] at hm
            rcases List.mem_append.mp hm with h1 | h2
            · exact hAll m h1 hu
            · rcases List.mem_cons.mp h2 with h3 | h4
              · subst h3
                rfl
              · exact htail m h4 hu
          · refine ⟨m0, rest0 ++ (ChatPage.candidateMsg s :: tail), ?_, hrole⟩
            rw [hceq, hh]
            simp
  | reset s hs hprev ih =>
      refine ⟨?_, ?_⟩
      · intro m hm
        simp [ChatPage.handleResetSession] at hm
      · intro hst
        simp [ChatPage.handleResetSession] at hst
  | typeResume s t hs hprev ih => exact ih
  | pickResume s f hs hprev ih => exact ih
  | typeJobDesc s t hs hprev ih => exact ih
  | pickJobDesc s f hs hprev ih => exact ih
  | typeInstructions s t hs hprev ih => exact ih
  | typeAns s t hs hprev ih => exact ih

/-- Witness for the amended C1 at a concrete reachable state. -/
theorem C1_candidate_turns_carry_no_feedback_witness :
    ChatPage.historyInv c1s5 :=
  C1_candidate_turns_carry_no_feedback c1s5
    (ChatPage.Reachable.send _ _ (by decide)
      (ChatPage.Reachable.typeAns _ _ (by decide)
        (ChatPage.Reachable.start _ _ (by decide)
          (ChatPage.Reachable.typeJobDesc _ _ (by decide)
            (ChatPage.Reachable.typeResume _ _ (by decide)
              (ChatPage.Reachable.init 0 "0.5"))))))

end CareerBoost
